import Mathlib

/-
Shallow embedding of the ASA server manager process supervisor
(src-tauri/src/services/process_manager.rs), the rcon ListPlayers parser
(src-tauri/src/services/rcon.rs), the port probe
(src-tauri/src/services/network.rs) and the guardian health monitor
(src-tauri/src/services/guardian.rs).

Machine state that the Rust code keeps behind a Mutex is modelled as an
explicit state value; each lock-protected critical section of the source
becomes one atomic transition on that state.  The outcome of polling a
child process (Rust child.try_wait()) is an explicit ProcView input.
-/

/- ===== Character-level string helpers (structural, kernel-reducible) ===== -/

/-- Whitespace test matching the characters relevant to the Rust trim calls. -/
def isWS (c : Char) : Bool :=
  c = ' ' || c = '\t' || c = '\r' || c = '\n'

/-- Trim whitespace from both ends of a character list (Rust str::trim). -/
def trimChars (l : List Char) : List Char :=
  ((l.dropWhile isWS).reverse.dropWhile isWS).reverse

/-- Trim whitespace from the end only (Rust str::trim_end). -/
def trimEndChars (l : List Char) : List Char :=
  (l.reverse.dropWhile isWS).reverse

/-- Rust str::trim on strings. -/
def rust_trim (s : String) : String :=
  String.mk (trimChars s.toList)

/-- Rust str::trim_end on strings. -/
def rust_trim_end (s : String) : String :=
  String.mk (trimEndChars s.toList)

/-- Does the first list start with the second list (character lists)? -/
def startsWithC : List Char → List Char → Bool
  | _, [] => true
  | [], _ :: _ => false
  | a :: as, b :: bs => a = b && startsWithC as bs

/-- Does hay contain pat as a contiguous substring (Rust str::contains)? -/
def containsSub (pat : List Char) : List Char → Bool
  | [] => startsWithC [] pat
  | c :: cs => startsWithC (c :: cs) pat || containsSub pat cs

/-- Substring containment on strings (Rust str::contains with a literal). -/
def strContains (hay pat : String) : Bool :=
  containsSub pat.toList hay.toList

/-- Rust str::split_whitespace: split on whitespace, dropping empty pieces. -/
def rustSplitWhitespaceAux : List Char → List Char → List (List Char)
  | acc, [] => if acc = [] then [] else [acc.reverse]
  | acc, c :: cs =>
    if isWS c then
      if acc = [] then rustSplitWhitespaceAux [] cs
      else acc.reverse :: rustSplitWhitespaceAux [] cs
    else rustSplitWhitespaceAux (c :: acc) cs

/-- Rust str::split_whitespace on strings. -/
def rustSplitWhitespace (s : String) : List String :=
  (rustSplitWhitespaceAux [] s.toList).map String.mk

/-- Split a character list at every newline (keeps an empty last piece). -/
def splitNL : List Char → List (List Char)
  | [] => [[]]
  | '\n' :: cs => [] :: splitNL cs
  | c :: cs =>
    match splitNL cs with
    | [] => [[c]]
    | l :: ls => (c :: l) :: ls

/-- Drop one trailing carriage return (the CR of a CRLF line terminator). -/
def stripOneCR (l : List Char) : List Char :=
  match l.getLast? with
  | some c => if c = '\r' then l.dropLast else l
  | none => l

/-- All pieces but the last were newline-terminated: strip their CR;
drop the last piece when it is empty (Rust str::lines semantics). -/
def rustLinesAux : List (List Char) → List (List Char)
  | [] => []
  | [last] => if last = [] then [] else [last]
  | l :: rest => stripOneCR l :: rustLinesAux rest

/-- Rust str::lines on strings. -/
def rust_lines (s : String) : List String :=
  (rustLinesAux (splitNL s.toList)).map String.mk

/-- Accumulate decimal digits into a natural number. -/
def digitsToNat : List Char → Nat → Nat
  | [], acc => acc
  | c :: cs, acc => digitsToNat cs (acc * 10 + (c.toNat - ('0').toNat))

/-- Largest i64 value, for the overflow check of Rust i64 parsing. -/
def i64max : Nat := 9223372036854775807

/-- Rust str::parse::<i64>: optional sign, one or more digits, i64 range. -/
def parseI64chars (l : List Char) : Option Int :=
  match l with
  | [] => none
  | '+' :: rest =>
    if rest ≠ [] ∧ rest.all Char.isDigit then
      if digitsToNat rest 0 ≤ i64max then some (Int.ofNat (digitsToNat rest 0)) else none
    else none
  | '-' :: rest =>
    if rest ≠ [] ∧ rest.all Char.isDigit then
      if digitsToNat rest 0 ≤ i64max + 1 then some (-(Int.ofNat (digitsToNat rest 0))) else none
    else none
  | cs =>
    if cs.all Char.isDigit then
      if digitsToNat cs 0 ≤ i64max then some (Int.ofNat (digitsToNat cs 0)) else none
    else none

/-- Split at the first occurrence of a character: pieces before and after it. -/
def splitAtFirst (target : Char) : List Char → Option (List Char × List Char)
  | [] => none
  | c :: cs =>
    if c = target then some ([], cs)
    else
      match splitAtFirst target cs with
      | some (pre, post) => some (c :: pre, post)
      | none => none

/-- Rust standard join on a vector of strings with a separator (sep ","). -/
def joinComma : List String → String
  | [] => ""
  | [s] => s
  | s :: rest => s ++ "," ++ joinComma rest

/- ===== Association-list maps (the HashMaps of the source) ===== -/

/-- Lookup in an association list keyed by server id (HashMap::get). -/
def alookup {β : Type} : List (Int × β) → Int → Option β
  | [], _ => none
  | (k, v) :: rest, id => if k = id then some v else alookup rest id

/-- Remove every binding of a key (HashMap::remove; maps here are dup-free). -/
def aremove {β : Type} : List (Int × β) → Int → List (Int × β)
  | [], _ => []
  | (k, v) :: rest, id =>
    if k = id then aremove rest id else (k, v) :: aremove rest id

/-- Insert, replacing any previous binding (HashMap::insert). -/
def ainsert {β : Type} (l : List (Int × β)) (id : Int) (v : β) : List (Int × β) :=
  (id, v) :: aremove l id

/- ===== Process manager data model ===== -/

/-- Outcome of polling a child process once: child.try_wait() returned
Ok(None) (still running), Ok(Some(status)) (exited), or Err (check failed). -/
inductive ProcView where
  | running
  | exited (code : Int)
  | checkFailed
deriving DecidableEq

/-- A registry entry: the child process id and the stop flag
(the Arc of AtomicBool shared with the log watcher). -/
structure Proc where
  pid : Nat
  stop_flag : Bool
deriving DecidableEq

/-- Notifications emitted through the tauri app handle. -/
inductive Event where
  | statusChange (server_id : Int) (status : String)
  | logLine (server_id : Int) (line : String) (is_stderr : Bool)
deriving DecidableEq

/-- Supervisor state: the process registry (the HashMap behind the Mutex)
and the handles that have been removed from it (whose stop flags live on
in the detached log-watcher threads). -/
structure MState where
  reg : List (Int × Proc)
  detached : List Proc
deriving DecidableEq

/-- State before any server has been started. -/
def initState : MState := MState.mk [] []

/-- Result of one is_running call: the returned boolean, the registry
state after the call, and the events emitted during the call. -/
structure RunOut where
  res : Bool
  st : MState
  evs : List Event
deriving DecidableEq

/-- ProcessManager::is_running.  Looks the id up; when the poll reports the
process exited it stores the stop flag, removes the entry and emits a
stopped status change; when the poll errors it returns false and leaves
the entry in place. -/
def is_running (v : ProcView) (s : MState) (server_id : Int) : RunOut :=
  match alookup s.reg server_id with
  | none => RunOut.mk false s []
  | some p =>
    match v with
    | ProcView.exited _ =>
      RunOut.mk false
        (MState.mk (aremove s.reg server_id) (s.detached ++ [Proc.mk p.pid true]))
        [Event.statusChange server_id ("stopped")]
    | ProcView.running => RunOut.mk true s []
    | ProcView.checkFailed => RunOut.mk false s []

/-- ProcessManager::stop_server.  Removes the entry, stores its stop flag,
kills the process and emits the stopped status change; a missing entry is
a silent no-op.  The Rust function always returns Ok. -/
def stop_server (s : MState) (server_id : Int) : MState × List Event :=
  match alookup s.reg server_id with
  | some p =>
    (MState.mk (aremove s.reg server_id) (s.detached ++ [Proc.mk p.pid true]),
      [Event.statusChange server_id ("stopped")])
  | none => (s, [])

/-- True when the poll outcome is an exit. -/
def isExitedView : ProcView → Bool
  | ProcView.exited _ => true
  | _ => false

/-- One pass of the background monitoring thread spawned in
ProcessManager::new: under the single registry lock it stores the stop
flag of every entry whose process has exited, removes those entries and
emits a stopped status change for each. -/
def monitor_step (views : Int → ProcView) (s : MState) : MState × List Event :=
  let crashed := s.reg.filter (fun e => isExitedView (views e.1))
  let reg2 := s.reg.filter (fun e => !(isExitedView (views e.1)))
  (MState.mk reg2 (s.detached ++ crashed.map (fun e => Proc.mk e.2.pid true)),
    crashed.map (fun e => Event.statusChange e.1 ("stopped")))

/- ===== Launch argument construction (start_server, lines 226-296) ===== -/

/-- The parameters of ProcessManager::start_server that shape the launch
argument list. -/
structure LaunchSpec where
  map_name : String
  session_name : String
  game_port : Nat
  query_port : Nat
  rcon_port : Nat
  max_players : Int
  server_password : Option String
  admin_password : String
  ip_address : Option String
  cluster_id : Option String
  cluster_dir : Option String
  mods : Option (List String)
  custom_args : Option String

/-- The connection string built by start_server through its sequence of
push_str calls. -/
def conn_url (sp : LaunchSpec) : String :=
  let connection_url := sp.map_name ++ "?listen"
  let connection_url := connection_url ++ ("?SessionName=" ++ sp.session_name)
  let connection_url := connection_url ++ ("?Port=" ++ toString sp.game_port)
  let connection_url := connection_url ++ ("?QueryPort=" ++ toString sp.query_port)
  let connection_url := connection_url ++ ("?RCONPort=" ++ toString sp.rcon_port)
  let connection_url := connection_url ++ ("?MaxPlayers=" ++ toString sp.max_players)
  let connection_url := connection_url ++ ("?ServerAdminPassword=" ++ sp.admin_password)
  match sp.server_password with
  | some password => connection_url ++ ("?ServerPassword=" ++ password)
  | none => connection_url

/-- The argument vector built by start_server, mirroring the sequence of
push calls of the source. -/
def buildArgs (sp : LaunchSpec) : List String :=
  let args := [conn_url sp]
  let args := args ++ ["-log"]
  let args := args ++ ["-NoBattlEye"]
  let args :=
    match sp.ip_address with
    | some ip => if ip ≠ "" then args ++ ["-MultiHome=" ++ ip] else args
    | none => args
  let args :=
    match sp.cluster_id, sp.cluster_dir with
    | some cid, some cdir =>
      if cid ≠ "" ∧ cdir ≠ "" then
        args ++ ["-clusterid=" ++ cid, "-ClusterDirOverride=\"" ++ cdir ++ "\""]
      else args
    | _, _ => args
  let args :=
    match sp.mods with
    | some mod_list =>
      if mod_list ≠ [] then args ++ ["-mods=" ++ joinComma mod_list] else args
    | none => args
  let args :=
    match sp.custom_args with
    | some custom =>
      if custom ≠ "" then args ++ rustSplitWhitespace custom else args
    | none => args
  args

/-- The connection string exactly as the specification words it. -/
def connStringSpec (sp : LaunchSpec) : String :=
  sp.map_name ++ "?listen" ++ "?SessionName=" ++ sp.session_name
    ++ "?Port=" ++ toString sp.game_port
    ++ "?QueryPort=" ++ toString sp.query_port
    ++ "?RCONPort=" ++ toString sp.rcon_port
    ++ "?MaxPlayers=" ++ toString sp.max_players
    ++ "?ServerAdminPassword=" ++ sp.admin_password
    ++ (match sp.server_password with
        | some pw => "?ServerPassword=" ++ pw
        | none => "")

/-- Optional MultiHome flag as the specification words it. -/
def multiHomeSpec (sp : LaunchSpec) : List String :=
  match sp.ip_address with
  | some ip => if ip = "" then [] else ["-MultiHome=" ++ ip]
  | none => []

/-- Optional cluster flags as the specification words them. -/
def clusterSpec (sp : LaunchSpec) : List String :=
  match sp.cluster_id, sp.cluster_dir with
  | some cid, some cdir =>
    if cid = "" ∨ cdir = "" then []
    else ["-clusterid=" ++ cid, "-ClusterDirOverride=\"" ++ cdir ++ "\""]
  | _, _ => []

/-- Optional mods flag as the specification words it. -/
def modsSpec (sp : LaunchSpec) : List String :=
  match sp.mods with
  | some mod_list => if mod_list = [] then [] else ["-mods=" ++ joinComma mod_list]
  | none => []

/-- Extra caller arguments split on whitespace, as the specification words. -/
def extraSpec (sp : LaunchSpec) : List String :=
  match sp.custom_args with
  | some custom => rustSplitWhitespace custom
  | none => []

/-- The launch argument list in the order the specification claims. -/
def launch_args_spec (sp : LaunchSpec) : List String :=
  connStringSpec sp :: "-log" :: "-NoBattlEye"
    :: (multiHomeSpec sp ++ clusterSpec sp ++ modsSpec sp ++ extraSpec sp)

/- ===== start_server preconditions, spawn and grace period ===== -/

/-- Environment of network.rs is_port_in_use: whether binding a TCP or a
UDP listener on 0.0.0.0 at a port fails. -/
structure NetEnv where
  tcp_bind_fails : Nat → Bool
  udp_bind_fails : Nat → Bool

/-- network.rs is_port_in_use: the port counts as in use when either the
TCP bind or the UDP bind fails. -/
def is_port_in_use (net : NetEnv) (port : Nat) : Bool :=
  if net.tcp_bind_fails port then true
  else if net.udp_bind_fails port then true
  else false

/-- Environment of one start_server call: whether the executable exists at
the conventional path, the port probes, whether spawn succeeds, the
try_wait outcome after the five second grace sleep, and the new pid. -/
structure StartEnv where
  exe_exists : Bool
  net : NetEnv
  spawn_ok : Bool
  grace_view : ProcView
  new_pid : Nat

/-- The distinct anyhow error messages of start_server. -/
inductive StartError where
  | exeNotFound
  | portInUse (which : String) (port : Nat)
  | spawnFailed
  | immediateExit (code : Int)
  | statusCheckFailed
deriving DecidableEq

/-- Result of a start_server call: returned value, registry state after the
call, whether an OS process was spawned, the argument vector passed to the
spawn when one happened, and the emitted events. -/
structure StartOut where
  res : Except StartError Unit
  st : MState
  spawned : Bool
  spawn_args : Option (List String)
  evs : List Event

/-- True on the error side of an Except. -/
def isErr {ε α : Type} : Except ε α → Bool
  | Except.error _ => true
  | Except.ok _ => false

/-- ProcessManager::start_server: executable check, the three port checks,
argument build, spawn, five second grace sleep with a single try_wait poll,
and only then the emit of the running status and the registry insert. -/
def start_server (env : StartEnv) (s : MState) (server_id : Int) (sp : LaunchSpec) : StartOut :=
  if env.exe_exists = false then
    StartOut.mk (Except.error StartError.exeNotFound) s false none []
  else if is_port_in_use env.net sp.game_port then
    StartOut.mk (Except.error (StartError.portInUse ("game") sp.game_port)) s false none []
  else if is_port_in_use env.net sp.query_port then
    StartOut.mk (Except.error (StartError.portInUse ("query") sp.query_port)) s false none []
  else if is_port_in_use env.net sp.rcon_port then
    StartOut.mk (Except.error (StartError.portInUse ("rcon") sp.rcon_port)) s false none []
  else
    let args := buildArgs sp
    if env.spawn_ok = false then
      StartOut.mk (Except.error StartError.spawnFailed) s false none []
    else
      match env.grace_view with
      | ProcView.exited c =>
        StartOut.mk (Except.error (StartError.immediateExit c)) s true (some args) []
      | ProcView.checkFailed =>
        StartOut.mk (Except.error StartError.statusCheckFailed) s true (some args) []
      | ProcView.running =>
        StartOut.mk (Except.ok ())
          (MState.mk (ainsert s.reg server_id (Proc.mk env.new_pid false)) s.detached)
          true (some args)
          [Event.statusChange server_id ("running")]

/- ===== Graceful shutdown (shutdown_server, lines 484-524) ===== -/

/-- The wait loop of shutdown_server: while is_running and attempts < 15,
sleep one second.  The loop condition calls is_running (with its
reconciliation side effects) once per iteration, including the final one;
the schedule gives the try_wait outcome at each successive poll. -/
def wait_loop (sched : Nat → ProcView) (server_id : Int) :
    Nat → MState → Nat → MState × Nat × List Event
  | 0, s, t =>
    let r := is_running (sched t) s server_id
    (r.st, t + 1, r.evs)
  | fuel + 1, s, t =>
    let r := is_running (sched t) s server_id
    if r.res = true then
      let rest := wait_loop sched server_id fuel r.st (t + 1)
      (rest.1, rest.2.1, r.evs ++ rest.2.2)
    else (r.st, t + 1, r.evs)

/-- Step 2 of shutdown_server: if still running, force stop. -/
def shutdown_final (v : ProcView) (s : MState) (server_id : Int) : MState × List Event :=
  let r := is_running v s server_id
  if r.res = true then
    let st := stop_server r.st server_id
    (st.1, r.evs ++ st.2)
  else (r.st, r.evs)

/-- ProcessManager::shutdown_server: when the rcon connect succeeds, send
SaveWorld and DoExit and poll is_running up to the attempt bound; then, if
still running, force stop.  rcon_ok abstracts whether connect returned a
successful response. -/
def shutdown_server (sched : Nat → ProcView) (rcon_ok : Bool) (s : MState) (server_id : Int) :
    MState × List Event :=
  let w := if rcon_ok then wait_loop sched server_id 15 s 0 else (s, 0, [])
  let f := shutdown_final (sched w.2.1) w.1 server_id
  (f.1, w.2.2 ++ f.2)

/- ===== Log watcher readiness detection (start_server, lines 383-431) ===== -/

/-- The readiness markers the log watcher looks for, exactly as written in
the source: note the trailing space after the colon of Full Startup. -/
def ready_marker (line : String) : Bool :=
  strContains line ("server has successfully started")
    || strContains line ("Full Startup: ")
    || strContains line ("Number of cores")

/-- One freshly read log line handled by the watcher thread: trim the end,
skip empty lines, emit the log event, and when the online flag is not yet
set and the line carries a readiness marker, set the flag and emit the
online status change.  Returns the new online flag and the events. -/
def process_log_line (server_id : Int) (online : Bool) (raw : String) : Bool × List Event :=
  let line := rust_trim_end raw
  if line = "" then (online, [])
  else
    let evs := [Event.logLine server_id line false]
    if online = false ∧ ready_marker line = true then
      (true, evs ++ [Event.statusChange server_id ("online")])
    else (online, evs)

/- ===== rcon ListPlayers parser (rcon.rs, lines 172-202) ===== -/

/-- A parsed player record (models::RconPlayer). -/
structure RconPlayer where
  id : Int
  name : String
  steam_id : String
deriving DecidableEq

/-- The body of the per-line loop of parse_player_list: trim, skip empty
lines and the no-players sentinel, find the first dot, parse the index,
split the remainder at the first comma, and trim name and identifier. -/
def parse_player_line_chars (l0 : List Char) : Option RconPlayer :=
  let line := trimChars l0
  if line = [] then none
  else if line = ("No Players Connected").toList then none
  else
    match splitAtFirst '.' line with
    | none => none
    | some (id_str, after) =>
      match parseI64chars (trimChars id_str) with
      | none => none
      | some id =>
        match splitAtFirst ',' (trimChars after) with
        | none => none
        | some (p0, p1) =>
          some (RconPlayer.mk id (String.mk (trimChars p0)) (String.mk (trimChars p1)))

/-- The per-line parse on strings. -/
def parse_player_line (raw : String) : Option RconPlayer :=
  parse_player_line_chars raw.toList

/-- rcon.rs parse_player_list: fold over the lines of the response,
pushing one record per line that parses. -/
def parse_player_list (data : String) : List RconPlayer :=
  (rust_lines data).foldl (fun players line => players ++ (parse_player_line line).toList) []

/-- A line that is not of the shape index dot name comma identifier, in the
three ways the specification lists: no dot, an index that does not parse
as an i64, or no comma after the dot. -/
def lineNotShaped (raw : String) : Prop :=
  splitAtFirst '.' (trimChars raw.toList) = none
    ∨ (∃ pre post, splitAtFirst '.' (trimChars raw.toList) = some (pre, post)
        ∧ parseI64chars (trimChars pre) = none)
    ∨ (∃ pre post, splitAtFirst '.' (trimChars raw.toList) = some (pre, post)
        ∧ splitAtFirst ',' (trimChars post) = none)

/- ===== Guardian health monitor (guardian.rs) ===== -/

/-- What the sysinfo snapshot reports for a pid: none when the process is
gone, otherwise its memory in bytes and its cpu usage percentage. -/
structure SysEnv where
  procs : Nat → Option (Nat × ℚ)

/-- GuardianService state: registered pids, auto-restart settings and
crash counts per server id. -/
structure GuardianState where
  server_pids : List (Int × Nat)
  auto_restart_enabled : List (Int × Bool)
  crash_counts : List (Int × Nat)

/-- The health snapshot (guardian.rs ServerHealth). -/
structure ServerHealth where
  server_id : Int
  is_alive : Bool
  last_seen : String
  crash_count : Nat
  memory_mb : ℚ
  cpu_percent : ℚ
  auto_restart_enabled : Bool
  last_restart : Option String
deriving DecidableEq

/-- GuardianService::register_server: insert the pid for the id. -/
def register_server (g : GuardianState) (server_id : Int) (pid : Nat) : GuardianState :=
  GuardianState.mk (ainsert g.server_pids server_id pid) g.auto_restart_enabled g.crash_counts

/-- GuardianService::get_server_health: return none when no pid is
registered for the id; otherwise look the pid up in the system snapshot
and build the snapshot record, with zero memory and cpu when the process
is gone. -/
def get_server_health (env : SysEnv) (now : String) (g : GuardianState) (server_id : Int) :
    Option ServerHealth :=
  match alookup g.server_pids server_id with
  | none => none
  | some pid =>
    let pr := env.procs pid
    let is_alive := pr.isSome
    let mem_cpu : ℚ × ℚ :=
      match pr with
      | some (m, c) => ((m : ℚ) / 1048576, c)
      | none => (0, 0)
    some (ServerHealth.mk server_id is_alive now
      ((alookup g.crash_counts server_id).getD 0)
      mem_cpu.1 mem_cpu.2
      ((alookup g.auto_restart_enabled server_id).getD false)
      none)

/- ===== Helper lemmas ===== -/

theorem alookup_aremove_self {β : Type} (l : List (Int × β)) (id : Int) :
    alookup (aremove l id) id = none := by
  induction l with
  | nil => rfl
  | cons e rest ih =>
    obtain ⟨k, v⟩ := e
    by_cases hk : k = id
    · simp [aremove, hk, ih]
    · simp [aremove, alookup, hk, ih]

theorem mem_aremove {β : Type} {e : Int × β} {l : List (Int × β)} {id : Int}
    (h : e ∈ aremove l id) : e ∈ l := by
  induction l with
  | nil => simp [aremove] at h
  | cons f rest ih =>
    obtain ⟨k, v⟩ := f
    by_cases hk : k = id
    · simp only [aremove, if_pos hk] at h
      exact List.mem_cons_of_mem _ (ih h)
    · simp only [aremove, if_neg hk] at h
      rcases List.mem_cons.mp h with h | h
      · exact h ▸ List.mem_cons_self _ _
      · exact List.mem_cons_of_mem _ (ih h)

theorem alookup_mem {β : Type} {l : List (Int × β)} {id : Int} {v : β}
    (h : alookup l id = some v) : (id, v) ∈ l := by
  induction l with
  | nil => simp [alookup] at h
  | cons f rest ih =>
    obtain ⟨k, w⟩ := f
    by_cases hk : k = id
    · subst hk
      have hw : w = v := by simpa [alookup] using h
      subst hw
      exact List.mem_cons_self _ _
    · simp only [alookup, if_neg hk] at h
      exact List.mem_cons_of_mem _ (ih h)

theorem alookup_filter_none {β : Type} (l : List (Int × β)) (id : Int)
    (f : Int → Bool) (hf : f id = false) :
    alookup (l.filter (fun e => f e.1)) id = none := by
  induction l with
  | nil => rfl
  | cons e rest ih =>
    obtain ⟨k, v⟩ := e
    by_cases hk : k = id
    · subst hk
      simp [List.filter_cons, hf, ih]
    · by_cases hke : f k
      · simp [List.filter_cons, hke, alookup, hk, ih]
      · simp only [List.filter_cons]
        rw [if_neg (by simp [hke])]
        exact ih

/-- Registered entries all have a clear stop flag: no observer of the
lock-protected state ever sees the cancellation flag set for a handle
whose id is still present in the registry. -/
def flags_clear (s : MState) : Prop :=
  ∀ e ∈ s.reg, e.2.stop_flag = false

theorem flags_clear_init : flags_clear initState := by
  intro e he
  simp [initState] at he

theorem flags_clear_is_running (v : ProcView) (s : MState) (server_id : Int)
    (h : flags_clear s) : flags_clear (is_running v s server_id).st := by
  unfold is_running
  cases hl : alookup s.reg server_id with
  | none => exact h
  | some p =>
    cases v with
    | running => exact h
    | checkFailed => exact h
    | exited c =>
      intro e he
      exact h e (mem_aremove he)

theorem flags_clear_stop (s : MState) (server_id : Int)
    (h : flags_clear s) : flags_clear (stop_server s server_id).1 := by
  unfold stop_server
  cases hl : alookup s.reg server_id with
  | none => exact h
  | some p =>
    intro e he
    exact h e (mem_aremove he)

theorem flags_clear_monitor (views : Int → ProcView) (s : MState)
    (h : flags_clear s) : flags_clear (monitor_step views s).1 := by
  intro e he
  exact h e (List.mem_of_mem_filter he)

theorem flags_clear_start (env : StartEnv) (s : MState) (server_id : Int) (sp : LaunchSpec)
    (h : flags_clear s) : flags_clear (start_server env s server_id sp).st := by
  unfold start_server
  split_ifs with h1 h2 h3 h4 h5
  · exact h
  · exact h
  · exact h
  · exact h
  · exact h
  · cases hg : env.grace_view with
    | exited c => exact h
    | checkFailed => exact h
    | running =>
      intro e he
      rcases List.mem_cons.mp he with he | he
      · rw [he]
      · exact h e (mem_aremove he)

theorem flags_clear_wait_loop (sched : Nat → ProcView) (server_id : Int)
    (fuel : Nat) (s : MState) (t : Nat)
    (h : flags_clear s) : flags_clear (wait_loop sched server_id fuel s t).1 := by
  induction fuel generalizing s t with
  | zero => exact flags_clear_is_running _ _ _ h
  | succ fuel ih =>
    unfold wait_loop
    by_cases hr : (is_running (sched t) s server_id).res = true
    · simp only [if_pos hr]
      exact ih _ _ (flags_clear_is_running _ _ _ h)
    · simp only [if_neg hr]
      exact flags_clear_is_running _ _ _ h

theorem flags_clear_shutdown_final (v : ProcView) (s : MState) (server_id : Int)
    (h : flags_clear s) : flags_clear (shutdown_final v s server_id).1 := by
  unfold shutdown_final
  by_cases hr : (is_running v s server_id).res = true
  · simp only [if_pos hr]
    exact flags_clear_stop _ _ (flags_clear_is_running _ _ _ h)
  · simp only [if_neg hr]
    exact flags_clear_is_running _ _ _ h

theorem flags_clear_shutdown (sched : Nat → ProcView) (rcon_ok : Bool) (s : MState)
    (server_id : Int) (h : flags_clear s) :
    flags_clear (shutdown_server sched rcon_ok s server_id).1 := by
  unfold shutdown_server
  by_cases hc : rcon_ok
  · simp only [if_pos hc]
    exact flags_clear_shutdown_final _ _ _ (flags_clear_wait_loop _ _ _ _ _ h)
  · simp only [if_neg hc]
    exact flags_clear_shutdown_final _ _ _ h

/- ===== Claim theorems ===== -/

/-- C1: is_running(id) is true exactly when the id is in the process
registry and the poll reports the OS process alive; it is false in the
initial state (before any start) and immediately after a stop(id); and
when the poll finds the process exited, is_running itself removes the
registry entry. -/
theorem c1_registry_source_of_truth (v : ProcView) (s : MState) (server_id : Int) :
    ((is_running v s server_id).res = true ↔
      (∃ p, alookup s.reg server_id = some p) ∧ v = ProcView.running)
    ∧ (∀ id2 : Int, (is_running v initState id2).res = false)
    ∧ (∀ s2 : MState, ∀ id2 : Int, (is_running v (stop_server s2 id2).1 id2).res = false)
    ∧ (∀ c : Int, v = ProcView.exited c →
        alookup (is_running v s server_id).st.reg server_id = none) := by
  refine ⟨?_, ?_, ?_, ?_⟩
  · cases hl : alookup s.reg server_id with
    | none => simp [is_running, hl]
    | some p => cases v <;> simp [is_running, hl]
  · intro id2
    simp [is_running, initState, alookup]
  · intro s2 id2
    unfold stop_server
    cases hl : alookup s2.reg id2 with
    | none => simp [is_running, hl]
    | some p => simp [is_running, alookup_aremove_self]
  · intro c hv
    subst hv
    cases hl : alookup s.reg server_id with
    | none => simp [is_running, hl]
    | some p => simp [is_running, hl, alookup_aremove_self]

/-- Witness for C1 at a concrete state: a registered server whose poll
reports an exit is removed from the registry by is_running itself. -/
theorem c1_registry_source_of_truth_witness :
    alookup (is_running (ProcView.exited 0) (MState.mk [(1, Proc.mk 9 false)] []) 1).st.reg 1
      = none :=
  (c1_registry_source_of_truth (ProcView.exited 0) (MState.mk [(1, Proc.mk 9 false)] []) 1).2.2.2
    0 rfl

theorem shutdown_final_unregisters (v : ProcView) (s : MState) (server_id : Int)
    (hv : v ≠ ProcView.checkFailed) :
    alookup (shutdown_final v s server_id).1.reg server_id = none := by
  unfold shutdown_final
  cases hl : alookup s.reg server_id with
  | none => simp [is_running, hl]
  | some p =>
    cases v with
    | running => simp [is_running, hl, stop_server, alookup_aremove_self]
    | exited c => simp [is_running, hl, alookup_aremove_self]
    | checkFailed => exact absurd rfl hv

/-- C2 (amended): whenever shutdown_server returns and the liveness polls
did not fail with an OS error, the id is no longer registered in the
process registry, across the remote-console path, the bounded polling
loop, and the forceful fallback. -/
theorem c2_shutdown_unregisters (sched : Nat → ProcView) (rcon_ok : Bool) (s : MState)
    (server_id : Int) (h : ∀ t, sched t ≠ ProcView.checkFailed) :
    alookup (shutdown_server sched rcon_ok s server_id).1.reg server_id = none := by
  unfold shutdown_server
  exact shutdown_final_unregisters _ _ _ (h _)

/-- C2 counterexample: when the final liveness poll fails (try_wait Err),
is_running reports false while the entry stays registered, so
shutdown_server returns with the id still in the registry, refuting the
claim as stated. -/
theorem c2_shutdown_counterexample :
    alookup (shutdown_server (fun _ => ProcView.checkFailed) false
        (MState.mk [(1, Proc.mk 77 false)] []) 1).1.reg 1
      = some (Proc.mk 77 false) := by
  decide

/-- Witness for C2 at a concrete state: a running server is force stopped
and deregistered by the fallback. -/
theorem c2_shutdown_unregisters_witness :
    alookup (shutdown_server (fun _ => ProcView.running) true
        (MState.mk [(2, Proc.mk 50 false)] []) 2).1.reg 2
      = none :=
  c2_shutdown_unregisters (fun _ => ProcView.running) true
    (MState.mk [(2, Proc.mk 50 false)] []) 2 (fun _ h => ProcView.noConfusion h)

/-- C7 (amended): when the background reconciliation loop observes that a
registered server has exited, it sets that entry's cancellation flag,
removes the entry from the registry, and emits a status-change
notification with status stopped — the same untagged event that an
explicit stop(id) emits, so the notification does not distinguish an
unplanned exit from a planned stop. -/
theorem c7_monitor_reconciles (views : Int → ProcView) (s : MState) (server_id : Int)
    (p : Proc) (hl : alookup s.reg server_id = some p)
    (hx : isExitedView (views server_id) = true) :
    alookup (monitor_step views s).1.reg server_id = none
    ∧ Proc.mk p.pid true ∈ (monitor_step views s).1.detached
    ∧ Event.statusChange server_id ("stopped") ∈ (monitor_step views s).2
    ∧ (stop_server (MState.mk [(server_id, p)] []) server_id).2
        = [Event.statusChange server_id ("stopped")] := by
  have hmem : (server_id, p) ∈ s.reg.filter (fun e => isExitedView (views e.1)) :=
    List.mem_filter.mpr ⟨alookup_mem hl, hx⟩
  refine ⟨?_, ?_, ?_, ?_⟩
  · exact alookup_filter_none s.reg server_id (fun i => !(isExitedView (views i)))
      (by simp [hx])
  · apply List.mem_append.mpr
    right
    exact List.mem_map.mpr ⟨(server_id, p), hmem, rfl⟩
  · exact List.mem_map.mpr ⟨(server_id, p), hmem, rfl⟩
  · simp [stop_server, alookup]

/-- C7 counterexample: for a registered server whose process exited, the
reconciliation loop emits exactly the same stopped event as an explicit
stop of a running server does — the unplanned exit carries no
distinguishing tag. -/
theorem c7_monitor_counterexample :
    (monitor_step (fun _ => ProcView.exited 0) (MState.mk [(1, Proc.mk 42 false)] [])).2
      = [Event.statusChange 1 ("stopped")]
    ∧ (stop_server (MState.mk [(1, Proc.mk 42 false)] []) 1).2
      = [Event.statusChange 1 ("stopped")] := by
  decide

/-- Witness for C7 at a concrete state: one registered exited server is
flagged, deregistered, and a stopped event is emitted. -/
theorem c7_monitor_reconciles_witness :
    alookup (monitor_step (fun _ => ProcView.exited 7)
        (MState.mk [(3, Proc.mk 11 false)] []) ).1.reg 3 = none
    ∧ Proc.mk 11 true ∈ (monitor_step (fun _ => ProcView.exited 7)
        (MState.mk [(3, Proc.mk 11 false)] []) ).1.detached
    ∧ Event.statusChange 3 ("stopped") ∈ (monitor_step (fun _ => ProcView.exited 7)
        (MState.mk [(3, Proc.mk 11 false)] []) ).2
    ∧ (stop_server (MState.mk [(3, Proc.mk 11 false)] []) 3).2
        = [Event.statusChange 3 ("stopped")] :=
  c7_monitor_reconciles (fun _ => ProcView.exited 7)
    (MState.mk [(3, Proc.mk 11 false)] []) 3 (Proc.mk 11 false) (by decide) rfl

/-- C8: in every deregistration path (explicit stop, the reconciliation
loop, the reconciliation inside is_running) removal happens before or
atomically with flipping the cancellation flag: every lock-protected
transition preserves the invariant that no registered entry has its stop
flag set, so no observer ever sees the flag set while the id is present. -/
theorem c8_removal_before_cancellation (s : MState) (h : flags_clear s) :
    flags_clear initState
    ∧ (∀ env : StartEnv, ∀ server_id : Int, ∀ sp : LaunchSpec,
        flags_clear (start_server env s server_id sp).st)
    ∧ (∀ server_id : Int, flags_clear (stop_server s server_id).1)
    ∧ (∀ v : ProcView, ∀ server_id : Int, flags_clear (is_running v s server_id).st)
    ∧ (∀ views : Int → ProcView, flags_clear (monitor_step views s).1)
    ∧ (∀ sched : Nat → ProcView, ∀ rcon_ok : Bool, ∀ server_id : Int,
        flags_clear (shutdown_server sched rcon_ok s server_id).1) := by
  refine ⟨flags_clear_init, ?_, ?_, ?_, ?_, ?_⟩
  · intro env server_id sp
    exact flags_clear_start env s server_id sp h
  · intro server_id
    exact flags_clear_stop s server_id h
  · intro v server_id
    exact flags_clear_is_running v s server_id h
  · intro views
    exact flags_clear_monitor views s h
  · intro sched rcon_ok server_id
    exact flags_clear_shutdown sched rcon_ok s server_id h

/-- Witness for C8 at a concrete state: stopping a registered running
server leaves no registered entry with the stop flag set. -/
theorem c8_removal_before_cancellation_witness :
    flags_clear (stop_server (MState.mk [(1, Proc.mk 5 false)] []) 1).1 :=
  (c8_removal_before_cancellation (MState.mk [(1, Proc.mk 5 false)] [])
    (by intro e he; simp at he; rw [he])).2.2.1 1

theorem rustSplitWhitespace_empty : rustSplitWhitespace "" = [] := rfl

/-- C3: start_server assembles the child argument list in exactly the
claimed order: the single connection string (with the ServerPassword field
appended only when a connection password is present), then -log, the
anti-cheat-disable flag, the optional MultiHome, cluster and mods flags,
and the extra arguments split on whitespace appended last. -/
theorem conn_url_eq_spec (sp : LaunchSpec) : conn_url sp = connStringSpec sp := by
  rcases sp with ⟨mn, sn, gp, qp, rp, mp, spw, apw, ip, cid, cdir, mods, cargs⟩
  cases spw <;> simp [conn_url, connStringSpec, ← String.append_assoc]

theorem c3_launch_argument_order (sp : LaunchSpec) :
    buildArgs sp = launch_args_spec sp := by
  rcases sp with ⟨mn, sn, gp, qp, rp, mp, spw, apw, ip, cid, cdir, mods, cargs⟩
  simp only [buildArgs, launch_args_spec, multiHomeSpec, clusterSpec,
    modsSpec, extraSpec, conn_url_eq_spec]
  cases ip <;> cases cid <;> cases cdir <;> cases mods <;> cases cargs <;>
    simp only [List.append_assoc, List.singleton_append, List.cons_append, List.nil_append,
      List.append_nil] <;>
    split_ifs <;>
    simp_all [rustSplitWhitespace_empty]

/-- C4: when the executable is missing at the conventional path or any of
the three ports is already bound locally, start_server returns an error
immediately, spawns no OS process, and leaves the registry untouched. -/
theorem c4_precondition_failures (env : StartEnv) (s : MState) (server_id : Int)
    (sp : LaunchSpec)
    (h : env.exe_exists = false
      ∨ is_port_in_use env.net sp.game_port = true
      ∨ is_port_in_use env.net sp.query_port = true
      ∨ is_port_in_use env.net sp.rcon_port = true) :
    isErr (start_server env s server_id sp).res = true
    ∧ (start_server env s server_id sp).st = s
    ∧ (start_server env s server_id sp).spawned = false := by
  by_cases h1 : env.exe_exists = false <;>
  by_cases h2 : is_port_in_use env.net sp.game_port = true <;>
  by_cases h3 : is_port_in_use env.net sp.query_port = true <;>
  by_cases h4 : is_port_in_use env.net sp.rcon_port = true <;>
    simp_all [start_server, isErr]

/-- Witness for C4: a missing executable makes start_server fail with no
spawn and no registry change. -/
theorem c4_precondition_failures_witness :
    isErr (start_server
        (StartEnv.mk false (NetEnv.mk (fun _ => false) (fun _ => false)) true ProcView.running 5)
        initState 1
        (LaunchSpec.mk ("TheIsland_WP") ("S") 7777 27015 27020 10 none ("adm")
          none none none none none)).res = true
    ∧ (start_server
        (StartEnv.mk false (NetEnv.mk (fun _ => false) (fun _ => false)) true ProcView.running 5)
        initState 1
        (LaunchSpec.mk ("TheIsland_WP") ("S") 7777 27015 27020 10 none ("adm")
          none none none none none)).st = initState
    ∧ (start_server
        (StartEnv.mk false (NetEnv.mk (fun _ => false) (fun _ => false)) true ProcView.running 5)
        initState 1
        (LaunchSpec.mk ("TheIsland_WP") ("S") 7777 27015 27020 10 none ("adm")
          none none none none none)).spawned = false :=
  c4_precondition_failures _ initState 1 _ (Or.inl rfl)

/-- C5: when the preconditions pass, the spawn succeeds and the single
poll after the grace period reports the process already exited,
start_server returns the immediate-exit error carrying that exit status
and inserts nothing into the registry; more generally every error return
of start_server leaves the registry exactly as it was. -/
theorem c5_immediate_exit (env : StartEnv) (s : MState) (server_id : Int)
    (sp : LaunchSpec) (c : Int) :
    (env.exe_exists = true → is_port_in_use env.net sp.game_port = false →
     is_port_in_use env.net sp.query_port = false →
     is_port_in_use env.net sp.rcon_port = false →
     env.spawn_ok = true → env.grace_view = ProcView.exited c →
      (start_server env s server_id sp).res = Except.error (StartError.immediateExit c)
      ∧ (start_server env s server_id sp).st = s)
    ∧ (isErr (start_server env s server_id sp).res = true →
        (start_server env s server_id sp).st = s) := by
  constructor
  · intro h1 h2 h3 h4 h5 h6
    simp [start_server, h1, h2, h3, h4, h5, h6]
  · intro herr
    by_cases h1 : env.exe_exists = false <;>
    by_cases h2 : is_port_in_use env.net sp.game_port = true <;>
    by_cases h3 : is_port_in_use env.net sp.query_port = true <;>
    by_cases h4 : is_port_in_use env.net sp.rcon_port = true <;>
    by_cases h5 : env.spawn_ok = false <;>
    cases hg : env.grace_view <;>
      simp_all [start_server, isErr]

/-- Witness for C5: a process that exits during the grace period yields
the immediate-exit error with its status and no registry entry. -/
theorem c5_immediate_exit_witness :
    (start_server
        (StartEnv.mk true (NetEnv.mk (fun _ => false) (fun _ => false)) true
          (ProcView.exited 3) 5)
        initState 1
        (LaunchSpec.mk ("TheIsland_WP") ("S") 7777 27015 27020 10 none ("adm")
          none none none none none)).res
      = Except.error (StartError.immediateExit 3)
    ∧ (start_server
        (StartEnv.mk true (NetEnv.mk (fun _ => false) (fun _ => false)) true
          (ProcView.exited 3) 5)
        initState 1
        (LaunchSpec.mk ("TheIsland_WP") ("S") 7777 27015 27020 10 none ("adm")
          none none none none none)).st = initState :=
  (c5_immediate_exit _ initState 1 _ 3).1 rfl rfl rfl rfl rfl rfl

/-- C6 counterexample: a line containing the claimed marker substring
Full Startup with a colon but no trailing space does not trigger the
ready transition, because the source matches on the marker with a
trailing space. -/
theorem c6_ready_marker_counterexample :
    strContains ("Full Startup:x") ("Full Startup:") = true
    ∧ (process_log_line 1 false ("Full Startup:x")).1 = false
    ∧ ¬ (Event.statusChange 1 ("online")) ∈ (process_log_line 1 false ("Full Startup:x")).2 := by
  decide

/-- C6 (amended): while the ready flag is not yet set, a freshly appended
log line containing one of the markers the source actually matches —
server has successfully started, Full Startup colon space, or Number of
cores — sets the ready flag and emits the online notification. -/
theorem c6_ready_markers_trigger (server_id : Int) (online : Bool) (raw : String)
    (ho : online = false) (hm : ready_marker (rust_trim_end raw) = true) :
    (process_log_line server_id online raw).1 = true
    ∧ (Event.statusChange server_id ("online")) ∈ (process_log_line server_id online raw).2 := by
  subst ho
  unfold process_log_line
  by_cases he : rust_trim_end raw = ""
  · rw [he] at hm
    exact absurd hm (by decide)
  · simp [he, hm]

/-- Witness for C6 at a concrete log line carrying the Full Startup
marker with its trailing space. -/
theorem c6_ready_markers_trigger_witness :
    (process_log_line 1 false ("[2024.01.01] Full Startup: 60.55 seconds")).1 = true
    ∧ (Event.statusChange 1 ("online"))
        ∈ (process_log_line 1 false ("[2024.01.01] Full Startup: 60.55 seconds")).2 :=
  c6_ready_markers_trigger 1 false ("[2024.01.01] Full Startup: 60.55 seconds") rfl (by decide)

theorem parse_line_chars_not_shaped (l : List Char)
    (h : splitAtFirst '.' (trimChars l) = none
      ∨ (∃ pre post, splitAtFirst '.' (trimChars l) = some (pre, post)
          ∧ parseI64chars (trimChars pre) = none)
      ∨ (∃ pre post, splitAtFirst '.' (trimChars l) = some (pre, post)
          ∧ splitAtFirst ',' (trimChars post) = none)) :
    parse_player_line_chars l = none := by
  simp only [parse_player_line_chars]
  by_cases h1 : trimChars l = []
  · rw [if_pos h1]
  · rw [if_neg h1]
    by_cases h2 : trimChars l = ("No Players Connected").toList
    · rw [if_pos h2]
    · rw [if_neg h2]
      rcases h with hd | ⟨pre, post, hs, hp⟩ | ⟨pre, post, hs, hc⟩
      · rw [hd]
      · rw [hs]
        simp [hp]
      · rw [hs]
        cases hpi : parseI64chars (trimChars pre) <;> simp [hpi, hc]

theorem foldl_push_eq_filterMap (ls : List String) (acc : List RconPlayer) :
    ls.foldl (fun players line => players ++ (parse_player_line line).toList) acc
      = acc ++ ls.filterMap parse_player_line := by
  induction ls generalizing acc with
  | nil => simp
  | cons l rest ih =>
    simp only [List.foldl_cons, List.filterMap_cons, ih]
    cases parse_player_line l <;> simp

/-- C9: the parser maps the line 0 dot Alice comma 7656119 to the single
record with id 0, name Alice and steam id 7656119; maps the sentinel
No Players Connected to the empty list; the result is exactly the
per-line parses of the input lines; and any line without a dot, with a
non-numeric index, or without a comma after the dot parses to no record. -/
theorem c9_parse_player_list :
    parse_player_list ("0. Alice, 7656119") = [RconPlayer.mk 0 ("Alice") ("7656119")]
    ∧ parse_player_list ("No Players Connected") = []
    ∧ (∀ data : String,
        parse_player_list data = (rust_lines data).filterMap parse_player_line)
    ∧ (∀ raw : String, lineNotShaped raw → parse_player_line raw = none) := by
  refine ⟨by decide, by decide, ?_, ?_⟩
  · intro data
    unfold parse_player_list
    rw [foldl_push_eq_filterMap]
    simp
  · intro raw h
    unfold parse_player_line
    apply parse_line_chars_not_shaped
    exact h

/-- Witness for C9: a line with no dot contributes no record. -/
theorem c9_parse_player_list_witness :
    parse_player_line ("garbage") = none :=
  c9_parse_player_list.2.2.2 ("garbage") (Or.inl (by decide))

/-- C10: get_server_health returns no snapshot for a server id with no
registered PID; a snapshot with liveness false (which then carries zero
memory and cpu figures) is produced only for an id whose registered PID
no longer corresponds to a live OS process. -/
theorem c10_guardian_health (env : SysEnv) (now : String) (g : GuardianState)
    (server_id : Int) :
    (alookup g.server_pids server_id = none →
      get_server_health env now g server_id = none)
    ∧ (∀ h : ServerHealth, get_server_health env now g server_id = some h →
        h.is_alive = false →
        ∃ pid, alookup g.server_pids server_id = some pid ∧ env.procs pid = none
          ∧ h.memory_mb = 0 ∧ h.cpu_percent = 0) := by
  constructor
  · intro h
    simp [get_server_health, h]
  · intro h hsome halive
    cases hl : alookup g.server_pids server_id with
    | none => simp [get_server_health, hl] at hsome
    | some pid =>
      cases hp : env.procs pid with
      | some mc =>
        simp [get_server_health, hl, hp] at hsome
        subst hsome
        simp at halive
      | none =>
        simp [get_server_health, hl, hp] at hsome
        subst hsome
        exact ⟨pid, rfl, hp, rfl, rfl⟩

/-- Witness for C10: an unregistered id yields no snapshot, and a
registered id whose process is gone yields the dead snapshot with zero
figures. -/
theorem c10_guardian_health_witness :
    get_server_health (SysEnv.mk (fun _ => none)) ("t")
        (GuardianState.mk [] [] []) 7 = none
    ∧ ∃ pid, alookup (GuardianState.mk [(1, 55)] [] []).server_pids 1 = some pid
        ∧ (SysEnv.mk (fun _ => none)).procs pid = none
        ∧ (ServerHealth.mk 1 false ("now") 0 0 0 false none).memory_mb = 0
        ∧ (ServerHealth.mk 1 false ("now") 0 0 0 false none).cpu_percent = 0 :=
  ⟨(c10_guardian_health (SysEnv.mk (fun _ => none)) ("t") (GuardianState.mk [] [] []) 7).1 rfl,
   (c10_guardian_health (SysEnv.mk (fun _ => none)) ("now")
      (GuardianState.mk [(1, 55)] [] []) 1).2
     (ServerHealth.mk 1 false ("now") 0 0 0 false none) (by decide) rfl⟩
